import Mathlib

/-!
# Verification of the mkdocs-macros plugin core (`mkdocs_macros/plugin.py`)

This file gives a shallow embedding, in Lean 4, of the parts of
`src/mkdocs_macros/plugin.py` that the specification's claims are about:

* the per-page render decision (`MacrosPlugin.render`, lines 488-517);
* the rendering / error-handling pipeline (`render`, lines 522-543, and
  `on_page_markdown`, lines 712-748);
* the shallow-copy semantics of Python's `copy.copy`, used at lines 492 and
  572 for the page variable store and the `config` entry;
* the deep-merge `update` used by `_load_yaml` (the function itself lives in
  `mkdocs_macros.util`, outside the sources given; it is modelled from the
  spec where noted);
* the `on_undefined` validation of `on_config` (lines 614-618) together with
  the `UNDEFINED_BEHAVIOR` table (lines 51-59);
* module loading (`_load_module`, lines 393-422, and `_load_modules`,
  lines 424-470);
* macro / filter registration (`macro`, lines 190-214, and `filter`,
  lines 216-240);
* the lazily-initialized plugin properties (lines 139-333).

Python dictionaries are embedded as association lists that preserve
insertion order: assignment `d[k] = v` replaces the value in place when the
key exists and appends otherwise, exactly like a Python dict.
-/

set_option autoImplicit false

namespace MkdocsMacros

/-- First value bound to `k`, like Python `d.get(k)`. -/
def listLookup {α : Type} : List (String × α) → String → Option α
  | [], _ => none
  | (k', v) :: rest, k => if k' = k then some v else listLookup rest k

/-- Python dict assignment `d[k] = v`: replace in place if present, else append. -/
def listInsert {α : Type} : List (String × α) → String → α → List (String × α)
  | [], k, v => [(k, v)]
  | (k', v') :: rest, k, v =>
      if k' = k then (k, v) :: rest else (k', v') :: listInsert rest k v

/-- A Python value as it occurs in the variable stores and page metadata of
the plugin: scalars or nested string-keyed dictionaries. -/
inductive Val where
  | vint : Int → Val
  | vbool : Bool → Val
  | vstr : String → Val
  | vdict : List (String × Val) → Val

/-- A variable store / metadata mapping (a Python dict of `Val`s). -/
abbrev Fields := List (String × Val)

/-- `meta_variables.get(key) == True` under Python equality
(`True == 1` holds in Python, so `vint 1` also compares equal to `True`). -/
def pyEqTrue : Option Val → Bool
  | some (.vbool b) => b
  | some (.vint n) => n == 1
  | _ => false

/-- `meta_variables.get(key) == False` under Python equality
(`False == 0` holds in Python). -/
def pyEqFalse : Option Val → Bool
  | some (.vbool b) => !b
  | some (.vint n) => n == 0
  | _ => false

/-- `opt_out = ignore_macros == True or render_macros == False`
(plugin.py line 510). -/
def opt_out (ignore_macros render_macros : Option Val) : Bool :=
  pyEqTrue ignore_macros || pyEqFalse render_macros

/-- `opt_in = render_macros == True or ignore_macros == False`
(plugin.py line 515). -/
def opt_in (ignore_macros render_macros : Option Val) : Bool :=
  pyEqTrue render_macros || pyEqFalse ignore_macros

/-- The per-page render decision of `render` (plugin.py lines 508-517):
`true` means the page is rendered, `false` means the raw markdown is
returned as is.  In opt-out mode (`render_by_default = true`) the page is
skipped exactly when `opt_out` holds; in opt-in mode it is rendered exactly
when `opt_in` holds. -/
def renderDecision (render_by_default : Bool)
    (ignore_macros render_macros : Option Val) : Bool :=
  if render_by_default then !opt_out ignore_macros render_macros
  else opt_in ignore_macros render_macros

/-- The keys of a mapping, in insertion order. -/
def listKeys {α : Type} (l : List (String × α)) : List String :=
  l.map Prod.fst

/-- Modelled from the spec: the deep-merge `update` of `mkdocs_macros.util`
(called by `_load_yaml` at plugin.py line 358; the util module is not among
the given sources).  Per the spec, merging a right-hand store into a
left-hand one proceeds key by key: for any key present as a nested mapping
in both stores the merge recurses, and for any other key the later
(right-hand) value overwrites the earlier. -/
def Fields.update : Fields → Fields → Fields
  | d, [] => d
  | d, (k, v) :: rest =>
      match listLookup d k, v with
      | some (.vdict sub), .vdict vsub =>
          Fields.update (listInsert d k (.vdict (Fields.update sub vsub))) rest
      | _, _ => Fields.update (listInsert d k v) rest
termination_by _ r => sizeOf r

/-- Python `d.update(other)` at the top level: iterate `other`, assigning
each key into `d` (used at plugin.py line 520 for
`page_variables.update(meta_variables)`). -/
def Fields.topUpdate (d other : Fields) : Fields :=
  other.foldl (fun acc kv => listInsert acc kv.1 kv.2) d

/-- Return code of the plugin in case of macro error (plugin.py line 62). -/
def ERROR_MACRO : Nat := 100

/-- Outcome of `MacrosPlugin.render`: either a returned string (the raw
markdown when skipped, the rendered page, or an error diagnostic), or a
process exit with the given status (`exit(ERROR_MACRO)`, plugin.py
line 540). -/
inductive RenderResult where
  | output : String → RenderResult
  | fatal : Nat → RenderResult
  deriving DecidableEq

/-- Modelled from the spec: `format_error` lives in `mkdocs_macros.errors`,
which is not among the given sources.  Per the spec it constructs a
diagnostic from the error description, the originating document text and
the document's identity. -/
def format_error (error markdown page : String) : String :=
  "ERROR - Macro Rendering Error in page " ++ page ++ ": " ++ error ++
    "\n\nOriginal markdown:\n\n" ++ markdown

/-- `MacrosPlugin.render` (plugin.py lines 472-543).  The jinja2 template
engine is an external collaborator, passed as `engine`: given the markdown
and the merged page variable store it returns the expanded text or raises.
The page metadata (line 494, from the page entry of the store) is passed as
`meta_variables`; a missing YAML header is the empty mapping.  The
shallow copy of the store at line 492 is the identity on this immutable
embedding; its aliasing behaviour is modelled separately by the `Heap`
development below. -/
def render (render_by_default on_error_fail : Bool)
    (engine : String → Fields → Except String String)
    (vars meta_variables : Fields) (page_name markdown : String) :
    RenderResult :=
  let ignore_macros := listLookup meta_variables "ignore_macros"
  let render_macros := listLookup meta_variables "render_macros"
  if renderDecision render_by_default ignore_macros render_macros = false then
    .output markdown
  else
    let page_variables := Fields.topUpdate vars meta_variables
    match engine markdown page_variables with
    | .ok rendered => .output rendered
    | .error err =>
        if on_error_fail then .fatal ERROR_MACRO
        else .output (format_error err markdown page_name)

/-- Run a list of hook functions in order on the current markdown (each
`func(self)` of plugin.py lines 734-735 and 746-747 receives the plugin
object and may reassign `self.markdown`; the effect on the markdown is what
matters here, so hooks are embedded as text transformers). -/
def applyHooks (hooks : List (String → String)) (markdown : String) : String :=
  hooks.foldl (fun md f => f md) markdown

/-- `MacrosPlugin.on_page_markdown` (plugin.py lines 712-748).  Returns
`none` when the build is aborted by `exit` inside `render`, otherwise
`some (final markdown, number of pre-macro hooks invoked, number of
post-macro hooks invoked)`.  Mirrors the source order: early return when the
variable store is empty; run every pre-macro function; render the (possibly
hook-modified) markdown; render the page title; run every post-macro
function; return `self.markdown`. -/
def on_page_markdown
    (pre_macro_functions post_macro_functions : List (String → String))
    (render_by_default on_error_fail : Bool)
    (engine : String → Fields → Except String String)
    (vars meta_variables : Fields)
    (page_name markdown page_title : String) :
    Option (String × Nat × Nat) :=
  if vars.isEmpty then some (markdown, 0, 0)
  else
    let md1 := applyHooks pre_macro_functions markdown
    match render render_by_default on_error_fail engine vars
        meta_variables page_name md1 with
    | .fatal _ => none
    | .output md2 =>
        match render render_by_default on_error_fail engine vars
            meta_variables page_name page_title with
        | .fatal _ => none
        | .output _ =>
            some (applyHooks post_macro_functions md2,
              pre_macro_functions.length, post_macro_functions.length)

/-! ## Aliasing model for Python's `copy.copy`

`render` (line 492) takes `page_variables = copy(self.variables)` and
`on_config` (line 572) stores `self.variables['config'] = copy(config)`.
`copy.copy` is Python's *shallow* copy: it allocates a fresh dictionary
object holding the same key/value entries, where nested dictionaries stay
shared references.  To reason about mutation through such copies we embed a
heap of dictionary objects. -/

/-- A heap address identifying one Python dictionary object. -/
abbrev Addr := Nat

/-- A Python value in the aliasing model: a scalar, or a reference to a
mutable dictionary object in the heap. -/
inductive HVal where
  | hint : Int → HVal
  | hstr : String → HVal
  | href : Addr → HVal
  deriving DecidableEq

/-- One dictionary object: ordered key/value entries. -/
abbrev Obj := List (String × HVal)

/-- The heap: the object at address `a` is the list entry at index `a`;
allocation appends at the end. -/
abbrev Heap := List Obj

/-- The dictionary object stored at address `a`. -/
def Heap.obj (h : Heap) (a : Addr) : Obj := h.getD a []

/-- Python `h[a].get(k)`. -/
def Heap.getField (h : Heap) (a : Addr) (k : String) : Option HVal :=
  listLookup (h.obj a) k

/-- Python `h[a][k] = v`: an in-place mutation of the object at `a`. -/
def Heap.setField (h : Heap) (a : Addr) (k : String) (v : HVal) : Heap :=
  h.set a (listInsert (h.obj a) k v)

/-- `copy.copy` of the dictionary at `a`: allocate a fresh object with the
same entries (nested references included) and return its address. -/
def Heap.copy (h : Heap) (a : Addr) : Heap × Addr :=
  (h ++ [h.obj a], h.length)

/-- Read `obj[k1][k2]`: follow the reference stored under `k1` and read
`k2` inside the referenced dictionary. -/
def Heap.getNested (h : Heap) (a : Addr) (k1 k2 : String) : Option HVal :=
  match h.getField a k1 with
  | some (.href b) => h.getField b k2
  | _ => none

/-- Mutate `obj[k1][k2] = v`: follow the reference stored under `k1` and
assign `k2` inside the referenced dictionary. -/
def Heap.setNested (h : Heap) (a : Addr) (k1 k2 : String) (v : HVal) : Heap :=
  match h.getField a k1 with
  | some (.href b) => h.setField b k2 v
  | _ => h

/-! ## Undefined-identifier policy (`on_undefined`) -/

/-- The four jinja2 `Undefined` classes the plugin can select
(plugin.py lines 44-55): `DebugUndefined` keeps the source text, `Undefined`
renders as empty, `StrictUndefined` raises, and the plugin's own
`LaxUndefined` passes anything wrong as blank. -/
inductive UndefinedClass where
  | debugUndefined
  | undefinedSilent
  | strictUndefined
  | laxUndefined
  deriving DecidableEq

/-- `UNDEFINED_BEHAVIOR` (plugin.py lines 51-55). -/
def UNDEFINED_BEHAVIOR : List (String × UndefinedClass) :=
  [("keep", .debugUndefined), ("silent", .undefinedSilent),
   ("strict", .strictUndefined), ("lax", .laxUndefined)]

/-- `DEFAULT_UNDEFINED_BEHAVIOR` (plugin.py line 59), the declared default
of the `on_undefined` option (line 101). -/
def DEFAULT_UNDEFINED_BEHAVIOR : String := "keep"

/-- The `on_undefined` validation of `on_config` (plugin.py lines
614-618): raise `ValueError` for a name outside `UNDEFINED_BEHAVIOR`,
otherwise select the corresponding class for the jinja2 environment.
`on_config` runs once at setup time, before any page reaches
`on_page_markdown`. -/
def selectUndefined (on_undefined : String) : Except String UndefinedClass :=
  match listLookup UNDEFINED_BEHAVIOR on_undefined with
  | none => .error ("Illegal value for undefined macro parameter "
      ++ on_undefined)
  | some u => .ok u

/-! ## Module loading -/

/-- `DEFAULT_MODULE_NAME` (plugin.py line 39). -/
def DEFAULT_MODULE_NAME : String := "main"

/-- What `_load_module` observes about an imported Python module: whether
the two registration entry points exist, and which of the three optional
lifecycle hook functions exist.  Hook functions are identified abstractly
(their behaviour is irrelevant to loading); the mutations the entry points
make to the environment are modelled by the registration development. -/
structure PyModule where
  has_define_env : Bool
  has_declare_variables : Bool
  on_pre_page_macros : Option Nat
  on_post_page_macros : Option Nat
  on_post_build : Option Nat
  deriving DecidableEq

/-- The three hook-function lists initialized by `_load_modules`
(plugin.py lines 426-428). -/
structure FunctionLists where
  pre_macro_functions : List Nat
  post_macro_functions : List Nat
  post_build_functions : List Nat
  deriving DecidableEq

/-- `add_function` (plugin.py lines 415-419): append the hook to its list
when the module has it. -/
def add_function (func : Option Nat) (funclist : List Nat) : List Nat :=
  match func with
  | some g => funclist ++ [g]
  | none => funclist

/-- `_load_module` (plugin.py lines 363-422).  `none` is Python falsy
(`if not module: return`).  The source calls `define_env` and the
deprecated `declare_variables` when present and then raises `NameError` if
neither was found; only after that are the three optional hooks appended. -/
def _load_module (module : Option PyModule) (module_name : String)
    (st : FunctionLists) : Except String FunctionLists :=
  match module with
  | none => .ok st
  | some m =>
      let function_found := m.has_define_env || m.has_declare_variables
      if function_found = false then
        .error ("No valid function found in module " ++ module_name)
      else
        .ok { pre_macro_functions :=
                add_function m.on_pre_page_macros st.pre_macro_functions,
              post_macro_functions :=
                add_function m.on_post_page_macros st.post_macro_functions,
              post_build_functions :=
                add_function m.on_post_build st.post_build_functions }

/-- Step 1 of `_load_modules` (plugin.py lines 430-452): load the named
(pluglet) modules in configured order.  Each entry carries the module
name and its import result after the one-shot install retry (`none`: still
not importable, a fatal `ModuleNotFoundError`). -/
def loadNamedModules : List (String × Option PyModule) → FunctionLists →
    Except String FunctionLists
  | [], st => .ok st
  | (moduleName, none) :: _, _ =>
      .error ("Could not import installed module " ++ moduleName)
  | (moduleName, some m) :: rest, st =>
      match _load_module (some m) moduleName st with
      | .error e => .error e
      | .ok st' => loadNamedModules rest st'

/-- `_load_modules` (plugin.py lines 424-470): initialize the three hook
lists, load the named modules, then look up exactly one local module
(`import_local_module`, an external file-system capability whose result is
passed as `local_module`); a missing local module is silently skipped when
the configured name is the default, and a fatal `ImportError` otherwise. -/
def _load_modules (named : List (String × Option PyModule))
    (module_name : String) (local_module : Option PyModule) :
    Except String FunctionLists :=
  match loadNamedModules named ⟨[], [], []⟩ with
  | .error e => .error e
  | .ok st =>
      match local_module with
      | some m => _load_module (some m) module_name st
      | none =>
          if module_name = DEFAULT_MODULE_NAME then .ok st
          else .error ("Macro plugin could not find custom " ++ module_name
            ++ " module")

/-! ## Macro / filter registration -/

/-- A Python callable as seen by registration: its declared `__name__`
plus an identity distinguishing different callables. -/
structure Callable where
  py_name : String
  fid : Nat
  deriving DecidableEq

/-- The macro and filter namespaces of the plugin (`self.macros` and
`self.filters`): two separate dictionaries. -/
structure Registry where
  macros : List (String × Callable)
  filters : List (String × Callable)
  deriving DecidableEq

/-- `MacrosPlugin.macro` (plugin.py lines 190-214):
`name = name or v.__name__; self.macros[name] = v; return v` — the
default name is the empty string, which is falsy in Python. -/
def register_macro_fn (st : Registry) (v : Callable) (name : String) :
    Registry × Callable :=
  let n := if name = "" then v.py_name else name
  ({ st with macros := listInsert st.macros n v }, v)

/-- `MacrosPlugin.filter` (plugin.py lines 216-240): symmetric to `macro`,
in the filter namespace. -/
def register_filter_fn (st : Registry) (v : Callable) (name : String) :
    Registry × Callable :=
  let n := if name = "" then v.py_name else name
  ({ st with filters := listInsert st.filters n v }, v)

/-! ## Lazily-initialized plugin properties -/

/-- The private attributes behind the `MacrosPlugin` properties.  A Python
attribute exists only once assigned; `none` models an attribute not yet
set, so that reading it raises `AttributeError`.  The page object and the
hook lists are abstracted as in `FunctionLists`. -/
structure PluginAttrs where
  variables_attr : Option Fields
  macros_attr : Option (List (String × Callable))
  filters_attr : Option (List (String × Callable))
  page_attr : Option String
  markdown_attr : Option String
  pre_macro_functions_attr : Option (List Nat)
  post_macro_functions_attr : Option (List Nat)
  post_build_functions_attr : Option (List Nat)

/-- The `variables` property (plugin.py lines 158-164): raises until
`on_config` assigns `_variables`. -/
def variablesProp (s : PluginAttrs) : Except String Fields :=
  match s.variables_attr with
  | some v => .ok v
  | none => .error "Property called before on_config()"

/-- The `macros` property (plugin.py lines 166-172). -/
def macrosProp (s : PluginAttrs) :
    Except String (List (String × Callable)) :=
  match s.macros_attr with
  | some v => .ok v
  | none => .error "Property called before on_config()"

/-- The `filters` property (plugin.py lines 174-181): unlike all the other
properties it catches the `AttributeError`, initializes `_filters` to an
empty dict and returns it.  The result carries the updated object state. -/
def filtersProp (s : PluginAttrs) :
    Except String (PluginAttrs × List (String × Callable)) :=
  match s.filters_attr with
  | some f => .ok (s, f)
  | none => .ok ({ s with filters_attr := some [] }, [])

/-- The `page` property (plugin.py lines 242-251). -/
def pageProp (s : PluginAttrs) : Except String String :=
  match s.page_attr with
  | some v => .ok v
  | none => .error ("Too early: page information is not available"
      ++ "at this stage!")

/-- The `markdown` property (plugin.py lines 253-262). -/
def markdownProp (s : PluginAttrs) : Except String String :=
  match s.markdown_attr with
  | some v => .ok v
  | none => .error ("Too early: raw markdown is not available"
      ++ "at this stage!")

/-- The `pre_macro_functions` property (plugin.py lines 299-309). -/
def preMacroFunctionsProp (s : PluginAttrs) : Except String (List Nat) :=
  match s.pre_macro_functions_attr with
  | some v => .ok v
  | none => .error ("You called the pre_macro_functions property "
      ++ "too early. Does not exist yet !")

/-- The `post_macro_functions` property (plugin.py lines 311-321). -/
def postMacroFunctionsProp (s : PluginAttrs) : Except String (List Nat) :=
  match s.post_macro_functions_attr with
  | some v => .ok v
  | none => .error ("You called the post_macro_functions property "
      ++ "too early. Does not exist yet !")

/-- The `post_build_functions` property (plugin.py lines 323-333). -/
def postBuildFunctionsProp (s : PluginAttrs) : Except String (List Nat) :=
  match s.post_build_functions_attr with
  | some v => .ok v
  | none => .error ("You called post_build_functions property "
      ++ "too early. Does not exist yet !")

end MkdocsMacros

namespace MkdocsMacros

/-- Claim C1: Per-document render decision: with tri-state flags (`some true`,
`some false`, or `none` for unset), when `render_by_default` is true the
document is skipped iff `ignore_macros == true` or `render_macros == false`;
when `render_by_default` is false it is rendered iff `render_macros == true`
or `ignore_macros == false`; and the decision is always exactly one of
render or skip. -/
theorem render_decision_table (ig rm : Option Bool) :
    (renderDecision true (ig.map Val.vbool) (rm.map Val.vbool) = false ↔
      (ig = some true ∨ rm = some false)) ∧
    (renderDecision false (ig.map Val.vbool) (rm.map Val.vbool) = true ↔
      (rm = some true ∨ ig = some false)) ∧
    (∀ rbd : Bool, renderDecision rbd (ig.map Val.vbool) (rm.map Val.vbool) = true ∨
      renderDecision rbd (ig.map Val.vbool) (rm.map Val.vbool) = false) := by
  revert ig rm
  decide

/-- When the skip branch is taken, `render` returns the markdown as is,
whatever the engine does. -/
theorem render_of_decision_false (render_by_default on_error_fail : Bool)
    (engine : String → Fields → Except String String)
    (vars meta_variables : Fields) (page_name markdown : String)
    (hskip : renderDecision render_by_default
        (listLookup meta_variables "ignore_macros")
        (listLookup meta_variables "render_macros") = false) :
    render render_by_default on_error_fail engine vars meta_variables
      page_name markdown = .output markdown := by
  simp [render, hskip]

/-- When `on_error_fail` is false, `render` always returns a string (it
never exits the process). -/
theorem render_output_of_not_fail (render_by_default : Bool)
    (engine : String → Fields → Except String String)
    (vars meta_variables : Fields) (page_name markdown : String) :
    ∃ s, render render_by_default false engine vars meta_variables
      page_name markdown = .output s := by
  by_cases hd : renderDecision render_by_default
      (listLookup meta_variables "ignore_macros")
      (listLookup meta_variables "render_macros") = false
  · exact ⟨markdown, by simp [render, hd]⟩
  · cases h : engine markdown (Fields.topUpdate vars meta_variables) with
    | ok s => exact ⟨s, by simp [render, hd, h]⟩
    | error e => exact ⟨format_error e markdown page_name,
        by simp [render, hd, h]⟩

/-- Claim C2 counterexample: a concrete document whose render decision is
skip (metadata `ignore_macros: true`, opt-out mode), processed with one
pre-render hook and one post-render hook: both hooks are invoked (counts
are 1, not 0) and the returned body differs from the input because the
hooks changed it — contradicting the claim that no hooks are invoked and
the body is returned unmodified. -/
theorem skipped_page_hooks_cex :
    renderDecision true
      (listLookup [("ignore_macros", Val.vbool true)] "ignore_macros")
      (listLookup [("ignore_macros", Val.vbool true)] "render_macros") = false ∧
    on_page_markdown [fun s => s ++ "!"] [fun s => s ++ "?"] true false
      (fun _ _ => Except.error "engine not reached")
      [("x", Val.vint 1)] [("ignore_macros", Val.vbool true)]
      "index.md" "# Hello" "Title"
      = some ("# Hello!?", 1, 1) := by
  constructor
  · decide
  · rfl

/-- Claim C2 (amended): for every document whose render decision is skip,
the `render` step returns its input text unmodified (whatever the engine
does); however `on_page_markdown` still invokes every pre-render and
post-render hook for that document, so the returned body is the raw text
only as transformed by those hooks. -/
theorem skipped_page_text_and_hooks
    (render_by_default on_error_fail : Bool)
    (engine : String → Fields → Except String String)
    (vars meta_variables : Fields)
    (page_name markdown page_title : String)
    (pre post : List (String → String))
    (hvars : vars.isEmpty = false)
    (hskip : renderDecision render_by_default
        (listLookup meta_variables "ignore_macros")
        (listLookup meta_variables "render_macros") = false) :
    render render_by_default on_error_fail engine vars meta_variables
      page_name markdown = .output markdown ∧
    on_page_markdown pre post render_by_default on_error_fail engine
      vars meta_variables page_name markdown page_title
      = some (applyHooks post (applyHooks pre markdown),
          pre.length, post.length) := by
  have hr := render_of_decision_false render_by_default on_error_fail engine
    vars meta_variables page_name
  refine ⟨hr markdown hskip, ?_⟩
  simp [on_page_markdown, hvars, hr _ hskip]

/-- Witness for C2 (amended) at a concrete skipped document with no
hooks. -/
theorem skipped_page_text_and_hooks_witness :
    render true false (fun _ _ => Except.ok "") [("x", Val.vint 1)]
      [("render_macros", Val.vbool false)] "p.md" "body" = .output "body" ∧
    on_page_markdown [] [] true false (fun _ _ => Except.ok "")
      [("x", Val.vint 1)] [("render_macros", Val.vbool false)]
      "p.md" "body" "t"
      = some ("body", 0, 0) :=
  skipped_page_text_and_hooks true false (fun _ _ => Except.ok "")
    [("x", Val.vint 1)] [("render_macros", Val.vbool false)]
    "p.md" "body" "t" [] [] rfl (by decide)

/-- Claim C4: for a document whose render decision is render and whose
template evaluation raises: with `on_error_fail` true the build terminates
with the non-zero status `ERROR_MACRO`; with `on_error_fail` false the
document's output is the diagnostic built from the error, the page and the
original markdown (and differs from the raw input) and the build continues;
and with `on_error_fail` false `on_page_markdown` always invokes every
post-render hook, whether rendering succeeded or failed. -/
theorem render_error_handling
    (render_by_default on_error_fail : Bool)
    (engine : String → Fields → Except String String)
    (vars meta_variables : Fields) (page_name markdown err : String)
    (hdec : renderDecision render_by_default
        (listLookup meta_variables "ignore_macros")
        (listLookup meta_variables "render_macros") = true)
    (herr : engine markdown (Fields.topUpdate vars meta_variables)
      = .error err) :
    (on_error_fail = true →
      render render_by_default on_error_fail engine vars meta_variables
        page_name markdown = .fatal ERROR_MACRO ∧ ERROR_MACRO ≠ 0) ∧
    (on_error_fail = false →
      render render_by_default on_error_fail engine vars meta_variables
        page_name markdown = .output (format_error err markdown page_name) ∧
      format_error err markdown page_name ≠ markdown) ∧
    (on_error_fail = false → vars.isEmpty = false →
      ∀ (pre post : List (String → String)) (body title : String),
        ∃ out, on_page_markdown pre post render_by_default false engine
          vars meta_variables page_name body title
          = some (out, pre.length, post.length)) := by
  refine ⟨?_, ?_, ?_⟩
  · intro hfail
    subst hfail
    constructor
    · simp [render, hdec, herr]
    · simp [ERROR_MACRO]
  · intro hok
    subst hok
    constructor
    · simp [render, hdec, herr]
    · intro h
      have hlen := congrArg String.length h
      simp only [format_error, String.length_append] at hlen
      have hpos : 0 < ("\n\nOriginal markdown:\n\n").length := by decide
      omega
  · intro _ hvars pre post body title
    obtain ⟨s1, hs1⟩ := render_output_of_not_fail render_by_default engine
      vars meta_variables page_name (applyHooks pre body)
    obtain ⟨s2, hs2⟩ := render_output_of_not_fail render_by_default engine
      vars meta_variables page_name title
    exact ⟨applyHooks post s1, by simp [on_page_markdown, hvars, hs1, hs2]⟩

/-- Witness for C4 at a concrete always-raising engine, in both
`on_error_fail` modes. -/
theorem render_error_handling_witness :
    (render true true (fun _ _ => Except.error "boom") [("x", Val.vint 1)]
      [] "p.md" "body" = .fatal ERROR_MACRO ∧ ERROR_MACRO ≠ 0) ∧
    (render true false (fun _ _ => Except.error "boom") [("x", Val.vint 1)]
      [] "p.md" "body" = .output (format_error "boom" "body" "p.md") ∧
      format_error "boom" "body" "p.md" ≠ "body") :=
  ⟨(render_error_handling true true (fun _ _ => Except.error "boom")
      [("x", Val.vint 1)] [] "p.md" "body" "boom" (by decide) rfl).1 rfl,
   (render_error_handling true false (fun _ _ => Except.error "boom")
      [("x", Val.vint 1)] [] "p.md" "body" "boom" (by decide) rfl).2.1 rfl⟩

/-- Looking up the key just inserted yields the inserted value. -/
theorem listLookup_listInsert_self {α : Type} (l : List (String × α))
    (k : String) (v : α) : listLookup (listInsert l k v) k = some v := by
  induction l with
  | nil => simp [listInsert, listLookup]
  | cons kv rest ih =>
      obtain ⟨k', v'⟩ := kv
      by_cases h : k' = k <;> simp [listInsert, listLookup, h, ih]

/-- Inserting under one key does not change the value found under another. -/
theorem listLookup_listInsert_ne {α : Type} (l : List (String × α))
    (k' k : String) (v : α) (h : k' ≠ k) :
    listLookup (listInsert l k' v) k = listLookup l k := by
  induction l with
  | nil => simp [listInsert, listLookup, h]
  | cons kv rest ih =>
      obtain ⟨k0, v0⟩ := kv
      by_cases h0 : k0 = k'
      · subst h0
        simp [listInsert, listLookup, h]
      · simp [listInsert, listLookup, h0, ih]

/-- The freshly allocated object at the end of the heap. -/
theorem heap_obj_append_len (h : Heap) (o : Obj) :
    Heap.obj (h ++ [o]) h.length = o := by
  induction h with
  | nil => rfl
  | cons x t ih => simp [Heap.obj, List.getD, ih]

/-- Allocation at the end leaves existing objects unchanged. -/
theorem heap_obj_append_lt (h : Heap) (o : Obj) (a : Addr)
    (ha : a < h.length) : Heap.obj (h ++ [o]) a = Heap.obj h a := by
  induction h generalizing a with
  | nil => simp at ha
  | cons x t ih =>
      cases a with
      | zero => rfl
      | succ n =>
          simp only [List.length_cons] at ha
          simpa [Heap.obj, List.getD] using ih n (Nat.lt_of_succ_lt_succ ha)

/-- Writing one object leaves every other object unchanged. -/
theorem heap_obj_set_ne (h : Heap) (i a : Addr) (o : Obj) (hne : i ≠ a) :
    Heap.obj (h.set i o) a = Heap.obj h a := by
  induction h generalizing i a with
  | nil => rfl
  | cons x t ih =>
      cases i with
      | zero =>
          cases a with
          | zero => exact absurd rfl hne
          | succ n => rfl
      | succ m =>
          cases a with
          | zero => rfl
          | succ n =>
              simpa [Heap.obj, List.getD] using
                ih m n (fun hmn => hne (congrArg Nat.succ hmn))

/-- Claim C3 counterexample: the store at address 0 holds a nested mapping
(`extra`, the object at address 1, with `x = 1`).  After `copy.copy` of the
store (address 2), assigning `x = 99` through the *copy's* `extra` entry
changes the value the original store sees under `extra.x` from 1 to 99:
the copy is shallow, so mutating its nested mappings does change the
shared store. -/
theorem copy_nested_mutation_cex :
    Heap.getNested (Heap.copy [[("extra", HVal.href 1)], [("x", HVal.hint 1)]] 0).1
      0 "extra" "x" = some (HVal.hint 1) ∧
    Heap.getNested
      (Heap.setNested (Heap.copy [[("extra", HVal.href 1)], [("x", HVal.hint 1)]] 0).1
        (Heap.copy [[("extra", HVal.href 1)], [("x", HVal.hint 1)]] 0).2
        "extra" "x" (HVal.hint 99))
      0 "extra" "x" = some (HVal.hint 99) := by
  constructor <;> rfl

/-- Claim C3 (amended): the per-document copy of the variable store and the
`config` copy are Python *shallow* copies: the copy is a distinct object
whose top-level entries alias the originals (nested mappings are shared, so
mutating them through the copy mutates the original, see the
counterexample); rebinding a top-level key of the copy — as the merge of
document metadata over it does — never changes any top-level value of the
original. -/
theorem copy_shallow_semantics (h : Heap) (a : Addr) (ha : a < h.length)
    (k k2 : String) (v : HVal) :
    (Heap.copy h a).2 ≠ a ∧
    Heap.getField (Heap.copy h a).1 (Heap.copy h a).2 k = Heap.getField h a k ∧
    Heap.getField (Heap.setField (Heap.copy h a).1 (Heap.copy h a).2 k v) a k2
      = Heap.getField h a k2 := by
  refine ⟨by simp only [Heap.copy]; exact Nat.ne_of_gt ha, ?_, ?_⟩
  · simp [Heap.copy, Heap.getField, heap_obj_append_len]
  · simp only [Heap.copy, Heap.getField, Heap.setField]
    rw [heap_obj_set_ne _ _ _ _ (Nat.ne_of_gt ha),
      heap_obj_append_lt _ _ _ ha]

/-- `update` with an empty right-hand store is the identity. -/
theorem update_nil_right (d : Fields) : Fields.update d [] = d := by
  unfold Fields.update
  rfl

/-- One step of `update` when the key is a nested mapping on both sides:
the merge recurses. -/
theorem update_cons_dict (d : Fields) (k : String) (sub vsub : Fields)
    (rest : Fields) (hd : listLookup d k = some (.vdict sub)) :
    Fields.update d ((k, .vdict vsub) :: rest) =
      Fields.update (listInsert d k (.vdict (Fields.update sub vsub))) rest := by
  rw [Fields.update.eq_def]
  simp [hd]

/-- One step of `update` when the key is not a nested mapping on both
sides: the right-hand value overwrites. -/
theorem update_cons_over (d : Fields) (k : String) (v : Val) (rest : Fields)
    (hside : ∀ sub vsub,
      listLookup d k = some (.vdict sub) → v = .vdict vsub → False) :
    Fields.update d ((k, v) :: rest)
      = Fields.update (listInsert d k v) rest := by
  conv_lhs => rw [Fields.update.eq_def]
  dsimp only
  split
  · rename_i x s sub vsub heq
    exact (hside sub vsub heq rfl).elim
  · rfl

/-- One step of `update` always assigns some value to the first right-hand
key and recurses on the remaining entries. -/
theorem update_cons_shape (d : Fields) (k : String) (v : Val)
    (rest : Fields) :
    ∃ v', Fields.update d ((k, v) :: rest)
      = Fields.update (listInsert d k v') rest := by
  by_cases hcase : ∃ sub vsub,
      listLookup d k = some (.vdict sub) ∧ v = .vdict vsub
  · obtain ⟨sub, vsub, h1, h2⟩ := hcase
    subst h2
    exact ⟨_, update_cons_dict d k sub vsub rest h1⟩
  · exact ⟨v, update_cons_over d k v rest
      (fun sub vsub h1 h2 => hcase ⟨sub, vsub, h1, h2⟩)⟩

/-- Keys that the right-hand store does not mention keep their left-hand
value under `update`. -/
theorem update_lookup_of_not_mem (r : Fields) :
    ∀ (d : Fields) (k : String), k ∉ listKeys r →
      listLookup (Fields.update d r) k = listLookup d k := by
  induction r with
  | nil => intro d k _; rw [update_nil_right]
  | cons kv rest ih =>
      obtain ⟨k0, v0⟩ := kv
      intro d k hk
      simp only [listKeys, List.map_cons, List.mem_cons, not_or] at hk
      obtain ⟨hk0, hkrest⟩ := hk
      have hne : k0 ≠ k := fun h => hk0 h.symm
      have hrest : k ∉ listKeys rest := by simpa [listKeys] using hkrest
      obtain ⟨v', hshape⟩ := update_cons_shape d k0 v0 rest
      rw [hshape, ih _ _ hrest, listLookup_listInsert_ne _ _ _ _ hne]

/-- The general deep-merge lemma behind claim C5: on stores whose
right-hand keys are distinct, a key nested on both sides merges
recursively and any other right-hand key overwrites. -/
theorem update_deep_merge (r : Fields) :
    ∀ (d : Fields) (k : String), (listKeys r).Nodup →
      (∀ sub vsub, listLookup d k = some (.vdict sub) →
          listLookup r k = some (.vdict vsub) →
          listLookup (Fields.update d r) k
            = some (.vdict (Fields.update sub vsub))) ∧
      (∀ v, listLookup r k = some v →
          (∀ sub vsub,
            ¬(listLookup d k = some (.vdict sub) ∧ v = .vdict vsub)) →
          listLookup (Fields.update d r) k = some v) := by
  induction r with
  | nil =>
      intro d k _
      constructor
      · intro sub vsub _ hr
        simp [listLookup] at hr
      · intro v hr _
        simp [listLookup] at hr
  | cons kv rest ih =>
      obtain ⟨k0, v0⟩ := kv
      intro d k hnd
      simp only [listKeys, List.map_cons, List.nodup_cons] at hnd
      obtain ⟨hk0rest, hndrest⟩ := hnd
      have hk0rest' : k0 ∉ listKeys rest := by simpa [listKeys] using hk0rest
      have hndrest' : (listKeys rest).Nodup := by simpa [listKeys] using hndrest
      by_cases hkk : k0 = k
      · subst hkk
        have hlr : listLookup ((k0, v0) :: rest) k0 = some v0 := by
          simp [listLookup]
        constructor
        · intro sub vsub hd hr
          rw [hlr] at hr
          injection hr with hv0
          subst hv0
          rw [update_cons_dict d k0 sub vsub rest hd,
            update_lookup_of_not_mem rest _ _ hk0rest',
            listLookup_listInsert_self]
        · intro v hr hside
          rw [hlr] at hr
          injection hr with hv0
          subst hv0
          rw [update_cons_over d k0 v0 rest
              (fun sub vsub h1 h2 => hside sub vsub ⟨h1, h2⟩),
            update_lookup_of_not_mem rest _ _ hk0rest',
            listLookup_listInsert_self]
      · have hlr : listLookup ((k0, v0) :: rest) k = listLookup rest k := by
          simp [listLookup, hkk]
        obtain ⟨v', hshape⟩ := update_cons_shape d k0 v0 rest
        have hdk : listLookup (listInsert d k0 v') k = listLookup d k :=
          listLookup_listInsert_ne _ _ _ _ hkk
        have ihd := ih (listInsert d k0 v') k hndrest'
        constructor
        · intro sub vsub hd hr
          rw [hlr] at hr
          rw [hshape]
          exact ihd.1 sub vsub (hdk.trans hd) hr
        · intro v hr hside
          rw [hlr] at hr
          rw [hshape]
          exact ihd.2 v hr
            (fun sub vsub hc => hside sub vsub ⟨hdk.symm.trans hc.1, hc.2⟩)

/-- The concrete merge example of the spec:
merging a store whose `a` is `x=1, y=2` with one whose `a` is `y=3, z=4`
yields `a` = `x=1, y=3, z=4`. -/
theorem update_example :
    Fields.update [("a", Val.vdict [("x", Val.vint 1), ("y", Val.vint 2)])]
        [("a", Val.vdict [("y", Val.vint 3), ("z", Val.vint 4)])]
      = [("a", Val.vdict
          [("x", Val.vint 1), ("y", Val.vint 3), ("z", Val.vint 4)])] := by
  have s1 := update_cons_over [("x", Val.vint 1), ("y", Val.vint 2)] "y"
    (Val.vint 3) [("z", Val.vint 4)] (fun _ vsub _ h2 => Val.noConfusion h2)
  have s2 := update_cons_over [("x", Val.vint 1), ("y", Val.vint 3)] "z"
    (Val.vint 4) [] (fun _ vsub _ h2 => Val.noConfusion h2)
  have einner : Fields.update [("x", Val.vint 1), ("y", Val.vint 2)]
      [("y", Val.vint 3), ("z", Val.vint 4)]
      = [("x", Val.vint 1), ("y", Val.vint 3), ("z", Val.vint 4)] :=
    s1.trans (s2.trans (update_nil_right _))
  have houter := update_cons_dict
    [("a", Val.vdict [("x", Val.vint 1), ("y", Val.vint 2)])] "a"
    [("x", Val.vint 1), ("y", Val.vint 2)] [("y", Val.vint 3), ("z", Val.vint 4)]
    [] rfl
  calc Fields.update
        [("a", Val.vdict [("x", Val.vint 1), ("y", Val.vint 2)])]
        [("a", Val.vdict [("y", Val.vint 3), ("z", Val.vint 4)])]
      = [("a", Val.vdict (Fields.update
          [("x", Val.vint 1), ("y", Val.vint 2)]
          [("y", Val.vint 3), ("z", Val.vint 4)]))] :=
        houter.trans (update_nil_right _)
    _ = [("a", Val.vdict
          [("x", Val.vint 1), ("y", Val.vint 3), ("z", Val.vint 4)])] := by
        rw [einner]

/-- Claim C5: deep merge of two variable stores is right-biased and
recursive: for every key present as a nested mapping in both stores the
merge recurses, for any other right-hand key the right-hand value
overwrites the left-hand one, and in particular merging `a: x=1,y=2` with
`a: y=3,z=4` yields `a: x=1,y=3,z=4`. -/
theorem update_right_biased (d r : Fields) (k : String)
    (hr : (listKeys r).Nodup) :
    (∀ sub vsub, listLookup d k = some (.vdict sub) →
        listLookup r k = some (.vdict vsub) →
        listLookup (Fields.update d r) k
          = some (.vdict (Fields.update sub vsub))) ∧
    (∀ v, listLookup r k = some v →
        (∀ sub vsub,
          ¬(listLookup d k = some (.vdict sub) ∧ v = .vdict vsub)) →
        listLookup (Fields.update d r) k = some v) ∧
    Fields.update [("a", Val.vdict [("x", Val.vint 1), ("y", Val.vint 2)])]
        [("a", Val.vdict [("y", Val.vint 3), ("z", Val.vint 4)])]
      = [("a", Val.vdict
          [("x", Val.vint 1), ("y", Val.vint 3), ("z", Val.vint 4)])] := by
  obtain ⟨h1, h2⟩ := update_deep_merge r d k hr
  exact ⟨h1, h2, update_example⟩

/-- Witness for C5: overwriting a scalar key at a concrete input. -/
theorem update_right_biased_witness :
    listLookup (Fields.update [("k", Val.vint 5)] [("k", Val.vint 7)]) "k"
      = some (Val.vint 7) :=
  (update_right_biased [("k", Val.vint 5)] [("k", Val.vint 7)] "k"
    (by simp [listKeys])).2.1 (Val.vint 7) rfl
    (fun _ _ hc => Val.noConfusion hc.2)

/-- Witness for C3 (amended) on a concrete two-object heap. -/
theorem copy_shallow_semantics_witness :
    (Heap.copy [[("extra", HVal.href 1)], [("x", HVal.hint 1)]] 0).2 ≠ 0 ∧
    Heap.getField (Heap.copy [[("extra", HVal.href 1)], [("x", HVal.hint 1)]] 0).1
      (Heap.copy [[("extra", HVal.href 1)], [("x", HVal.hint 1)]] 0).2 "extra"
      = Heap.getField [[("extra", HVal.href 1)], [("x", HVal.hint 1)]] 0 "extra" ∧
    Heap.getField
      (Heap.setField (Heap.copy [[("extra", HVal.href 1)], [("x", HVal.hint 1)]] 0).1
        (Heap.copy [[("extra", HVal.href 1)], [("x", HVal.hint 1)]] 0).2
        "extra" (HVal.hint 7)) 0 "extra"
      = Heap.getField [[("extra", HVal.href 1)], [("x", HVal.hint 1)]] 0 "extra" :=
  copy_shallow_semantics [[("extra", HVal.href 1)], [("x", HVal.hint 1)]] 0
    (by decide) "extra" "extra" (HVal.hint 7)

/-- Claim C6: configuring `on_undefined` with a value outside
`keep`, `silent`, `strict`, `lax` makes setup (`on_config`) raise before
any document is processed; each value inside the set selects the
corresponding undefined-identifier class, and the declared default is
`keep`. -/
theorem on_undefined_validation (s : String) :
    ((∃ e, selectUndefined s = .error e) ↔
      ¬(s = "keep" ∨ s = "silent" ∨ s = "strict" ∨ s = "lax")) ∧
    selectUndefined "keep" = .ok .debugUndefined ∧
    selectUndefined "silent" = .ok .undefinedSilent ∧
    selectUndefined "strict" = .ok .strictUndefined ∧
    selectUndefined "lax" = .ok .laxUndefined ∧
    DEFAULT_UNDEFINED_BEHAVIOR = "keep" := by
  refine ⟨⟨?_, ?_⟩, rfl, rfl, rfl, rfl, rfl⟩
  · rintro ⟨e, he⟩ (h | h | h | h) <;> subst h <;>
      simp [selectUndefined, UNDEFINED_BEHAVIOR, listLookup] at he
  · intro hmem
    simp only [not_or] at hmem
    obtain ⟨h1, h2, h3, h4⟩ := hmem
    have hl : listLookup UNDEFINED_BEHAVIOR s = none := by
      simp only [UNDEFINED_BEHAVIOR, listLookup]
      rw [if_neg (fun h => h1 h.symm), if_neg (fun h => h2 h.symm),
        if_neg (fun h => h3 h.symm), if_neg (fun h => h4 h.symm)]
    exact ⟨"Illegal value for undefined macro parameter " ++ s,
      by simp [selectUndefined, hl]⟩

/-- Witness for C6 at a concrete illegal value. -/
theorem on_undefined_validation_witness :
    ∃ e, selectUndefined "bogus" = .error e :=
  (on_undefined_validation "bogus").1.mpr (by simp)

/-- Claim C7: loading a module that exposes neither `define_env` nor the
legacy `declare_variables` entry point raises (`NameError`, the spec's
RegistrationError), whatever optional lifecycle hooks the module
exposes. -/
theorem load_module_no_entry_point (m : PyModule) (module_name : String)
    (st : FunctionLists)
    (h1 : m.has_define_env = false) (h2 : m.has_declare_variables = false) :
    _load_module (some m) module_name st
      = .error ("No valid function found in module " ++ module_name) := by
  simp [_load_module, h1, h2]

/-- Witness for C7: a module exposing all three optional hooks but no
registration entry point. -/
theorem load_module_no_entry_point_witness :
    _load_module (some ⟨false, false, some 1, some 2, some 3⟩) "mod"
      ⟨[], [], []⟩
      = .error ("No valid function found in module " ++ "mod") :=
  load_module_no_entry_point ⟨false, false, some 1, some 2, some 3⟩ "mod"
    ⟨[], [], []⟩ rfl rfl

/-- Claim C8: after all named extensions, `_load_modules` looks up exactly
one local project module; if it is absent and the configured name is the
default `main`, loading succeeds silently with the state produced by the
named extensions; if it is absent and a non-default name was explicitly
configured, loading fails fatally. -/
theorem load_modules_local_absent (named : List (String × Option PyModule))
    (module_name : String) (st : FunctionLists)
    (hnamed : loadNamedModules named ⟨[], [], []⟩ = .ok st) :
    (module_name = DEFAULT_MODULE_NAME →
      _load_modules named module_name none = .ok st) ∧
    (module_name ≠ DEFAULT_MODULE_NAME →
      ∃ e, _load_modules named module_name none = .error e) := by
  constructor
  · intro h
    simp [_load_modules, hnamed, h]
  · intro h
    exact ⟨"Macro plugin could not find custom " ++ module_name ++ " module",
      by simp [_load_modules, hnamed, h]⟩

/-- Witness for C8: no named extensions; the default name succeeds, a
custom name fails. -/
theorem load_modules_local_absent_witness :
    (_load_modules [] "main" none = .ok ⟨[], [], []⟩) ∧
    (∃ e, _load_modules [] "custom" none = .error e) :=
  ⟨(load_modules_local_absent [] "main" ⟨[], [], []⟩ rfl).1 rfl,
   (load_modules_local_absent [] "custom" ⟨[], [], []⟩ rfl).2 (by decide)⟩

/-- Claim C9: registering a callable with no explicit name (the default
empty string) binds it under its declared name; an explicit name binds it
under that name; the call returns the callable itself unchanged;
re-registering an existing name overwrites it without error (last
registration wins); and the macro and filter namespaces are separate
mappings, each registration leaving the other namespace untouched. -/
theorem registration_semantics (st : Registry) (v v2 : Callable)
    (n : String) (hn : n ≠ "") :
    listLookup (register_macro_fn st v "").1.macros v.py_name = some v ∧
    listLookup (register_macro_fn st v n).1.macros n = some v ∧
    (register_macro_fn st v n).2 = v ∧
    (register_macro_fn st v "").2 = v ∧
    listLookup (register_macro_fn (register_macro_fn st v n).1 v2 n).1.macros n
      = some v2 ∧
    (register_macro_fn st v n).1.filters = st.filters ∧
    listLookup (register_filter_fn st v "").1.filters v.py_name = some v ∧
    listLookup (register_filter_fn st v n).1.filters n = some v ∧
    (register_filter_fn st v n).2 = v ∧
    listLookup (register_filter_fn (register_filter_fn st v n).1 v2 n).1.filters n
      = some v2 ∧
    (register_filter_fn st v n).1.macros = st.macros := by
  refine ⟨?_, ?_, rfl, rfl, ?_, rfl, ?_, ?_, rfl, ?_, rfl⟩
  · simp [register_macro_fn, listLookup_listInsert_self]
  · simp [register_macro_fn, hn, listLookup_listInsert_self]
  · simp [register_macro_fn, hn, listLookup_listInsert_self]
  · simp [register_filter_fn, listLookup_listInsert_self]
  · simp [register_filter_fn, hn, listLookup_listInsert_self]
  · simp [register_filter_fn, hn, listLookup_listInsert_self]

/-- Witness for C9 at concrete callables and an empty registry. -/
theorem registration_semantics_witness :
    listLookup (register_macro_fn ⟨[], []⟩ ⟨"f", 0⟩ "").1.macros "f"
      = some ⟨"f", 0⟩ :=
  (registration_semantics ⟨[], []⟩ ⟨"f", 0⟩ ⟨"g", 1⟩ "m" (by decide)).1

/-- Claim C10: the `filters` property never raises — reading it before
setup completes silently initializes the filter dict to an empty mapping
and returns it — while the `variables`, `macros`, `page`, `markdown` and
the three hook-list properties all raise an access-too-early error when
read before initialization. -/
theorem filters_property_never_raises (s : PluginAttrs) :
    (∃ r, filtersProp s = .ok r) ∧
    (s.filters_attr = none →
      filtersProp s = .ok ({ s with filters_attr := some [] }, [])) ∧
    (s.variables_attr = none → ∃ e, variablesProp s = .error e) ∧
    (s.macros_attr = none → ∃ e, macrosProp s = .error e) ∧
    (s.page_attr = none → ∃ e, pageProp s = .error e) ∧
    (s.markdown_attr = none → ∃ e, markdownProp s = .error e) ∧
    (s.pre_macro_functions_attr = none →
      ∃ e, preMacroFunctionsProp s = .error e) ∧
    (s.post_macro_functions_attr = none →
      ∃ e, postMacroFunctionsProp s = .error e) ∧
    (s.post_build_functions_attr = none →
      ∃ e, postBuildFunctionsProp s = .error e) := by
  refine ⟨?_, ?_, ?_, ?_, ?_, ?_, ?_, ?_, ?_⟩
  · cases h : s.filters_attr <;> simp [filtersProp, h]
  · intro h
    simp [filtersProp, h]
  · intro h
    exact ⟨"Property called before on_config()", by simp [variablesProp, h]⟩
  · intro h
    exact ⟨"Property called before on_config()", by simp [macrosProp, h]⟩
  · intro h
    exact ⟨"Too early: page information is not available"
      ++ "at this stage!", by simp [pageProp, h]⟩
  · intro h
    exact ⟨"Too early: raw markdown is not available"
      ++ "at this stage!", by simp [markdownProp, h]⟩
  · intro h
    exact ⟨"You called the pre_macro_functions property "
      ++ "too early. Does not exist yet !",
      by simp [preMacroFunctionsProp, h]⟩
  · intro h
    exact ⟨"You called the post_macro_functions property "
      ++ "too early. Does not exist yet !",
      by simp [postMacroFunctionsProp, h]⟩
  · intro h
    exact ⟨"You called post_build_functions property "
      ++ "too early. Does not exist yet !",
      by simp [postBuildFunctionsProp, h]⟩

/-- Witness for C10 on the fully uninitialized plugin object. -/
theorem filters_property_never_raises_witness :
    filtersProp ⟨none, none, none, none, none, none, none, none⟩
      = .ok (⟨none, none, some [], none, none, none, none, none⟩, []) ∧
    (∃ e, variablesProp ⟨none, none, none, none, none, none, none, none⟩
      = .error e) :=
  ⟨(filters_property_never_raises
      ⟨none, none, none, none, none, none, none, none⟩).2.1 rfl,
   (filters_property_never_raises
      ⟨none, none, none, none, none, none, none, none⟩).2.2.1 rfl⟩

end MkdocsMacros
